import Mathlib

/-!
Verification of the financial-metrics engine of the AI-financial-advisor
repository (`data_processor.py`): the category schema, the two ingestion
adapters (`process_manual_data`, `process_csv_data`) and the health scorer
(`calculate_financial_health`).

Modelling conventions:
* Python floats are modelled as rationals (ℚ).  The spec states that the
  exact rounding mode of `round(x, 2)` is not semantically load-bearing;
  we model it as half-up rounding over ℚ (`round2`).
* A raw manual payload is an association list from field names to `Value`s,
  where a `Value` is either a number (anything Python's `float()` accepts)
  or an `invalid` payload on which `float()` raises `ValueError`.
* A CSV file is modelled as the list of its parsed rows (category cell as a
  string, amount cell as a `Value`); reading the file itself is outside the
  model.  Python's `str.title()` and `str.strip()` are modelled for ASCII.
* `calculate_financial_health` receives whatever was stored in the session,
  so its input is modelled as a loose Python value (`PyVal`): numbers,
  strings, booleans, `None`, dictionaries and lists.  Operations that would
  raise in Python (`.get` on a non-dict, ordering a `str` against a number,
  arithmetic on a non-number) are modelled in an `Except PyErr` monad; the
  function's outer `try/except` catches every such failure.
* Month and timestamp fields are wall-clock dependent and are omitted from
  the `Snapshot` model; no claim mentions them.
-/

set_option maxRecDepth 4000

-- Batteries marks the ℚ field operations irreducible for elaboration
-- performance; concrete runs of the engine below are evaluated with
-- `decide`, which needs them transparent again.  This changes nothing
-- about their meaning, only their unfolding behaviour.
set_option allowUnsafeReducibility true

attribute [semireducible] Rat.add Rat.mul Rat.sub Rat.inv Rat.ofScientific

/-- Python `str.lower()` for ASCII strings (core `String.toLower` is
defined through `String.mapAux`, which does not evaluate in the kernel). -/
def pyLower (s : String) : String := ⟨s.data.map Char.toLower⟩

/-- Python `str.strip()` for ASCII strings (core `String.trim` is defined
through `Substring`, which does not evaluate in the kernel). -/
def pyStrip (s : String) : String :=
  ⟨((s.data.dropWhile Char.isWhitespace).reverse.dropWhile
      Char.isWhitespace).reverse⟩

/-- A raw input value: either a number (any value Python's `float()`
converts successfully) or a payload on which `float()` raises. -/
inductive Value where
  | num (q : ℚ)
  | invalid (s : String)
  deriving DecidableEq, Repr

/-- `EXPENSE_CATEGORIES` from `data_processor.py`: the fixed, ordered
category schema. -/
def EXPENSE_CATEGORIES : List String :=
  ["Rent", "Food", "Transportation", "Shopping", "Entertainment",
   "EMI", "Utilities", "Healthcare", "Others"]

/-- Python `float(v)`: succeeds on numeric values, raises otherwise. -/
def parseValue : Value → Except String ℚ
  | .num q => .ok q
  | .invalid s => .error ("could not convert string to float: " ++ s)

/-- Python `data.get(k, d)` on an association list. -/
def lookupD (data : List (String × Value)) (k : String) (d : Value) : Value :=
  match data.lookup k with
  | some v => v
  | none => d

/-- Python `round(x, 2)` modelled over ℚ (half-up; the spec's rounding mode
is not load-bearing). -/
def round2 (q : ℚ) : ℚ := (round (q * 100) : ℤ) / 100

/-- The Financial Snapshot value object produced by both ingestion paths
(month/timestamp omitted: wall-clock dependent, mentioned by no claim). -/
structure Snapshot where
  income : ℚ
  expenses : List (String × ℚ)
  total_expenses : ℚ
  savings : ℚ
  savings_rate : ℚ
  expense_percentages : List (String × ℚ)
  source : String
  deriving DecidableEq, Repr

/-- The derived-metrics block shared verbatim by both adapters in
`data_processor.py` (lines 34–53 and 86–105): totals, savings, savings
rate, per-category percentages, with the income-0 guards. -/
def mkSnapshot (income : ℚ) (expenses : List (String × ℚ)) (src : String) :
    Snapshot :=
  { income := income
    expenses := expenses
    total_expenses := (expenses.map Prod.snd).sum
    savings := income - (expenses.map Prod.snd).sum
    savings_rate :=
      round2 (if income > 0 then
        (income - (expenses.map Prod.snd).sum) / income * 100 else 0)
    expense_percentages :=
      expenses.map (fun p =>
        (p.1, if income > 0 then round2 (p.2 / income * 100) else 0))
    source := src }

/-- The dict comprehension of `process_manual_data`: for each schema
category `c`, `float(data.get(c.lower(), 0))`, failing on the first
unparseable value (Python evaluates the comprehension in order and the
first `ValueError` aborts it). -/
def parseCats (data : List (String × Value)) :
    List String → Except String (List (String × ℚ))
  | [] => .ok []
  | c :: cs =>
    match parseValue (lookupD data (pyLower c) (.num 0)) with
    | .error e => .error e
    | .ok q =>
      match parseCats data cs with
      | .error e => .error e
      | .ok rest => .ok ((c, q) :: rest)

/-- Body of `process_manual_data` before the outer `try/except`. -/
def manualCore (data : List (String × Value)) : Except String Snapshot :=
  match parseValue (lookupD data "income" (.num 0)) with
  | .error e => .error e
  | .ok income =>
    match parseCats data EXPENSE_CATEGORIES with
    | .error e => .error e
    | .ok expenses => .ok (mkSnapshot income expenses "manual")

/-- `process_manual_data` from `data_processor.py`: parse income and the
nine category fields (keyed by the lowercased category name), build the
snapshot; any parse failure is re-raised with a descriptive message. -/
def process_manual_data (data : List (String × Value)) :
    Except String Snapshot :=
  match manualCore data with
  | .ok s => .ok s
  | .error e => .error ("Error processing manual data: " ++ e)

/-- Result of `float(data.get(c.lower(), 0))` when it succeeds, 0 when the
comprehension would raise; used only to describe successful runs. -/
def manualAmount (data : List (String × Value)) (c : String) : ℚ :=
  match parseValue (lookupD data (pyLower c) (.num 0)) with
  | .ok q => q
  | .error _ => 0

/-- One parsed CSV row: the `Category` cell (as a string) and the `Amount`
cell (a `Value`; a row with no amount cell is the default `num 0`). -/
structure CsvRow where
  category : String
  amount : Value
  deriving DecidableEq, Repr

/-- Python `str.title()` restricted to ASCII: an alphabetic character is
uppercased when it follows a non-alphabetic character (or starts the
string) and lowercased otherwise. -/
def titleAux : Bool → List Char → List Char
  | _, [] => []
  | prevAlpha, c :: cs =>
    (if c.isAlpha then (if prevAlpha then c.toLower else c.toUpper) else c)
      :: titleAux c.isAlpha cs

/-- `str(cell).strip().title()` applied to a category cell. -/
def pyTitle (s : String) : String := ⟨titleAux false (pyStrip s).data⟩

/-- `float(row.get("amount", 0))` with `except ValueError: amount = 0`:
an unparseable amount cell contributes 0 for that row only. -/
def rowAmount : Value → ℚ
  | .num q => q
  | .invalid _ => 0

/-- `expenses[key] += amt` on an association list (the key sets never
change: `updAdd` rewrites the first binding of `key` in place). -/
def updAdd : List (String × ℚ) → String → ℚ → List (String × ℚ)
  | [], _, _ => []
  | (k, v) :: rest, key, amt =>
    if k == key then (k, v + amt) :: rest
    else (k, v) :: updAdd rest key amt

/-- The loop body of `process_csv_data`: title-case the category; an
"Income" row overwrites income, a row naming a current expense key
accumulates there, anything else accumulates into "Others". -/
def csvStep (st : ℚ × List (String × ℚ)) (row : CsvRow) :
    ℚ × List (String × ℚ) :=
  if pyTitle row.category == "Income" then (rowAmount row.amount, st.2)
  else if (st.2.lookup (pyTitle row.category)).isSome then
    (st.1, updAdd st.2 (pyTitle row.category) (rowAmount row.amount))
  else (st.1, updAdd st.2 "Others" (rowAmount row.amount))

/-- `{category: 0.0 for category in EXPENSE_CATEGORIES}`. -/
def csvInit : List (String × ℚ) := EXPENSE_CATEGORIES.map (fun c => (c, 0))

/-- `process_csv_data` from `data_processor.py`, on the parsed rows of the
file (reading/parsing the file itself is outside the model): fold the row
loop from income 0 and all-zero expenses, then build the snapshot. -/
def process_csv_data (rows : List CsvRow) : Snapshot :=
  mkSnapshot (rows.foldl csvStep (0, csvInit)).1
    (rows.foldl csvStep (0, csvInit)).2 "csv"

/-- `HealthResult`: the `{score, status, color}` dictionary returned by
`calculate_financial_health` (score is a Python int, modelled as ℤ). -/
structure HealthResult where
  score : ℤ
  status : String
  color : String
  deriving DecidableEq, Repr

/-- A loose Python value, as stored in the session dictionary: numbers,
strings, booleans, None, dictionaries, lists. -/
inductive PyVal where
  | num (q : ℚ)
  | str (s : String)
  | bool (b : Bool)
  | null
  | dict (entries : List (String × PyVal))
  | list (xs : List PyVal)

/-- Failures the body of `calculate_financial_health` can raise. -/
inductive PyErr where
  | typeError
  | attributeError
  deriving DecidableEq, Repr

/-- Python `x.get(k, d)`: works on a dict, raises `AttributeError`
otherwise. -/
def pyGet (x : PyVal) (k : String) (d : PyVal) : Except PyErr PyVal :=
  match x with
  | .dict m => .ok ((m.lookup k).getD d)
  | _ => .error .attributeError

/-- Python `x.values()`: works on a dict, raises `AttributeError`
otherwise. -/
def pyValues (x : PyVal) : Except PyErr (List PyVal) :=
  match x with
  | .dict m => .ok (m.map Prod.snd)
  | _ => .error .attributeError

/-- Coerce a Python value to a number for ordering/arithmetic against a
number: numbers and booleans work, everything else is a `TypeError`. -/
def asNum : PyVal → Except PyErr ℚ
  | .num q => .ok q
  | .bool b => .ok (if b then 1 else 0)
  | _ => .error .typeError

/-- `[v for v in expenses.values() if v > 0]`: each comparison `v > 0`
raises `TypeError` on a non-numeric element. -/
def positiveNums : List PyVal → Except PyErr (List ℚ)
  | [] => .ok []
  | v :: rest =>
    match asNum v with
    | .error e => .error e
    | .ok q =>
      match positiveNums rest with
      | .error e => .error e
      | .ok qs => .ok (if q > 0 then q :: qs else qs)

/-- The body of `calculate_financial_health` before the clamp: the four
sub-score blocks, in source order and with Python's evaluation order (in
particular `-income * 0.1` is only evaluated when `savings > 0` is false,
and the EMI amount is only coerced to a number when `income > 0`). -/
def scoreCore (financial_data : PyVal) : Except PyErr ℤ := do
  let income ← pyGet financial_data "income" (.num 0)
  let savings ← pyGet financial_data "savings" (.num 0)
  let savings_rate ← pyGet financial_data "savings_rate" (.num 0)
  let expenses ← pyGet financial_data "expenses" (.dict [])
  let sr ← asNum savings_rate
  let p1 : ℤ :=
    if sr ≥ 30 then 40 else if sr ≥ 20 then 30
    else if sr ≥ 10 then 20 else if sr ≥ 5 then 10 else 0
  let sv ← asNum savings
  let p2 : ℤ ←
    if sv > 0 then pure 20
    else do
      let inc ← asNum income
      if sv ≥ -inc * (1 / 10) then pure 10 else pure 0
  let emi ← pyGet expenses "EMI" (.num 0)
  let inc ← asNum income
  let emi_pct : ℚ ←
    if inc > 0 then do
      let e ← asNum emi
      pure (e / inc * 100)
    else pure 0
  let p3 : ℤ :=
    if emi_pct = 0 then 20 else if emi_pct ≤ 30 then 15
    else if emi_pct ≤ 40 then 10 else if emi_pct ≤ 50 then 5 else 0
  let vals ← pyValues expenses
  let pos ← positiveNums vals
  let p4 : ℤ :=
    match pos with
    | [] => 0
    | p :: ps =>
      if inc > 0 then
        let max_pct := (ps.foldl max p) / inc * 100
        if max_pct ≤ 30 then 20 else if max_pct ≤ 40 then 15
        else if max_pct ≤ 50 then 10 else if max_pct ≤ 60 then 5 else 0
      else 0
  pure (p1 + p2 + p3 + p4)

/-- Raw score, clamp to [0,100], then the status/color mapping. -/
def calcCore (d : PyVal) : Except PyErr HealthResult :=
  match scoreCore d with
  | .error e => .error e
  | .ok raw =>
    let score := max 0 (min 100 raw)
    .ok (if score ≥ 80 then ⟨score, "Excellent", "green"⟩
      else if score ≥ 60 then ⟨score, "Good", "lightgreen"⟩
      else if score ≥ 40 then ⟨score, "Fair", "orange"⟩
      else ⟨score, "Needs Improvement", "red"⟩)

/-- `calculate_financial_health` from `data_processor.py`: the outer
`try/except` maps every internal failure to the Error/gray result. -/
def calculate_financial_health (financial_data : PyVal) : HealthResult :=
  match calcCore financial_data with
  | .ok r => r
  | .error _ => ⟨0, "Error", "gray"⟩

/-- A `Snapshot` as it sits in the session dictionary, i.e. the input
`calculate_financial_health` receives on the happy path. -/
def snapshotToPy (s : Snapshot) : PyVal :=
  .dict [("income", .num s.income),
         ("expenses", .dict (s.expenses.map (fun p => (p.1, PyVal.num p.2)))),
         ("total_expenses", .num s.total_expenses),
         ("savings", .num s.savings),
         ("savings_rate", .num s.savings_rate),
         ("expense_percentages",
           .dict (s.expense_percentages.map (fun p => (p.1, PyVal.num p.2)))),
         ("source", .str s.source)]

/-- A CSV row whose title-cased category cell is the literal "Income". -/
def isIncomeRow (r : CsvRow) : Bool := pyTitle r.category == "Income"

/-- Where a CSV row's amount is accumulated: nowhere for an Income row,
its own category when the title-cased cell is a schema category, and
"Others" otherwise. -/
def csvTarget (r : CsvRow) : Option String :=
  let t := pyTitle r.category
  if t = "Income" then none
  else if t ∈ EXPENSE_CATEGORIES then some t
  else some "Others"

/-- Total amount accumulated into category `c` by a list of CSV rows. -/
def csvTargetSum (rows : List CsvRow) (c : String) : ℚ :=
  (rows.map (fun r => if csvTarget r = some c then rowAmount r.amount else 0)).sum

/-- `charsStart p s` : the character list `p` is an initial segment of `s`
(core `String.startsWith` goes through `Substring` and does not evaluate
in the kernel). -/
def charsStart : List Char → List Char → Bool
  | [], _ => true
  | _ :: _, [] => false
  | p :: ps, c :: cs => p == c && charsStart ps cs

/-- The manual adapter failed with its single descriptive error message. -/
def raisesManualError (r : Except String Snapshot) : Bool :=
  match r with
  | .error e => charsStart "Error processing manual data: ".data e.data
  | .ok _ => false


/-! ### Association-list lemmas -/

theorem keys_updAdd (l : List (String × ℚ)) (k : String) (a : ℚ) :
    (updAdd l k a).map Prod.fst = l.map Prod.fst := by
  induction l with
  | nil => rfl
  | cons p rest ih =>
    obtain ⟨pk, pv⟩ := p
    by_cases h : pk == k
    · simp [updAdd, h]
    · simp only [updAdd] at *
      rw [if_neg h]
      simp [ih]

theorem lookup_updAdd_self (l : List (String × ℚ)) (k : String) (a : ℚ) :
    (updAdd l k a).lookup k = (l.lookup k).map (· + a) := by
  induction l with
  | nil => rfl
  | cons p rest ih =>
    obtain ⟨pk, pv⟩ := p
    by_cases h : pk = k
    · subst h
      simp [updAdd, List.lookup]
    · have hb : (pk == k) = false := beq_eq_false_iff_ne.mpr h
      have hb2 : (k == pk) = false := beq_eq_false_iff_ne.mpr (Ne.symm h)
      simp [updAdd, hb, hb2, List.lookup, ih]

theorem lookup_updAdd_ne (l : List (String × ℚ)) (k c : String) (a : ℚ)
    (h : c ≠ k) : (updAdd l k a).lookup c = l.lookup c := by
  induction l with
  | nil => rfl
  | cons p rest ih =>
    obtain ⟨pk, pv⟩ := p
    by_cases h1 : pk = k
    · subst h1
      have hb : (c == pk) = false := beq_eq_false_iff_ne.mpr h
      simp [updAdd, List.lookup, hb]
    · have hb : (pk == k) = false := beq_eq_false_iff_ne.mpr h1
      by_cases h2 : c = pk
      · subst h2
        simp [updAdd, hb, List.lookup]
      · have hb2 : (c == pk) = false := beq_eq_false_iff_ne.mpr h2
        simp [updAdd, hb, hb2, List.lookup, ih]

theorem lookup_isSome_iff (l : List (String × ℚ)) (c : String) :
    (l.lookup c).isSome = true ↔ c ∈ l.map Prod.fst := by
  induction l with
  | nil => simp [List.lookup]
  | cons p rest ih =>
    obtain ⟨pk, pv⟩ := p
    by_cases hc : c = pk
    · subst hc
      simp [List.lookup]
    · have hb : (c == pk) = false := beq_eq_false_iff_ne.mpr hc
      simp [List.lookup, hb, hc, ih]

theorem lookup_map_self {α : Type} (cats : List String) (g : String → α)
    (c : String) (hc : c ∈ cats) :
    (cats.map (fun x => (x, g x))).lookup c = some (g c) := by
  induction cats with
  | nil => cases hc
  | cons a rest ih =>
    by_cases h : c = a
    · subst h
      simp [List.lookup]
    · have hb : (c == a) = false := beq_eq_false_iff_ne.mpr h
      rcases List.mem_cons.mp hc with h1 | h2
      · exact absurd h1 h
      · simp [List.lookup, hb, ih h2]

theorem lookup_mapVal {α β : Type} (f : String → α → β)
    (l : List (String × α)) (c : String) :
    (l.map (fun p => (p.1, f p.1 p.2))).lookup c = (l.lookup c).map (f c) := by
  induction l with
  | nil => rfl
  | cons p rest ih =>
    obtain ⟨pk, pv⟩ := p
    by_cases h : c = pk
    · subst h
      simp [List.lookup]
    · have hb : (c == pk) = false := beq_eq_false_iff_ne.mpr h
      simp [List.lookup, hb, ih]

/-! ### Manual-adapter lemmas -/

theorem parseCats_ok (data : List (String × Value)) (cats : List String)
    (l : List (String × ℚ)) (h : parseCats data cats = .ok l) :
    l = cats.map (fun c => (c, manualAmount data c)) := by
  induction cats generalizing l with
  | nil =>
    simp only [parseCats] at h
    cases h
    rfl
  | cons c cs ih =>
    simp only [parseCats] at h
    cases hp : parseValue (lookupD data (pyLower c) (.num 0)) with
    | error e => rw [hp] at h; cases h
    | ok q =>
      rw [hp] at h
      cases hr : parseCats data cs with
      | error e => rw [hr] at h; cases h
      | ok rest =>
        rw [hr] at h
        cases h
        have hq : manualAmount data c = q := by
          unfold manualAmount
          rw [hp]
        simp [List.map_cons, hq, ih rest hr]

theorem parseCats_error_of_mem (data : List (String × Value))
    (cats : List String) (c : String) (s : String) (hc : c ∈ cats)
    (hv : lookupD data (pyLower c) (.num 0) = .invalid s) :
    ∃ e, parseCats data cats = .error e := by
  induction cats with
  | nil => cases hc
  | cons a rest ih =>
    cases hp : parseValue (lookupD data (pyLower a) (.num 0)) with
    | error e =>
      refine ⟨e, ?_⟩
      simp only [parseCats]
      rw [hp]
    | ok q =>
      rcases List.mem_cons.mp hc with h1 | h2
      · subst h1
        rw [hv] at hp
        simp [parseValue] at hp
      · obtain ⟨e, he⟩ := ih h2
        refine ⟨e, ?_⟩
        simp only [parseCats]
        rw [hp, he]

theorem parseCats_ok_of_wellTyped (data : List (String × Value))
    (cats : List String)
    (h : ∀ c ∈ cats, ∀ v, data.lookup (pyLower c) = some v →
      ∃ q, v = Value.num q) :
    parseCats data cats = .ok (cats.map (fun c => (c, manualAmount data c))) := by
  induction cats with
  | nil => rfl
  | cons a rest ih =>
    have ha : ∃ q, lookupD data (pyLower a) (.num 0) = Value.num q := by
      unfold lookupD
      cases hl : data.lookup (pyLower a) with
      | none => exact ⟨0, rfl⟩
      | some v =>
        obtain ⟨q, hq⟩ := h a (List.mem_cons_self a rest) v hl
        exact ⟨q, hq⟩
    obtain ⟨q, hq⟩ := ha
    have hrest := ih (fun c hc v hl => h c (List.mem_cons_of_mem a hc) v hl)
    have hval : manualAmount data a = q := by
      unfold manualAmount
      rw [hq]
      rfl
    simp only [parseCats]
    rw [hq, hrest]
    simp [parseValue, hval]

theorem process_manual_ok_iff (data : List (String × Value)) (s : Snapshot) :
    process_manual_data data = .ok s ↔ manualCore data = .ok s := by
  unfold process_manual_data
  cases manualCore data <;> simp

theorem charsStart_self_append (l m : List Char) :
    charsStart l (l ++ m) = true := by
  induction l with
  | nil => rfl
  | cons c cs ih => simp [charsStart, ih]

theorem raisesManualError_of_core (data : List (String × Value)) (e : String)
    (h : manualCore data = .error e) :
    raisesManualError (process_manual_data data) = true := by
  unfold process_manual_data
  rw [h]
  show charsStart "Error processing manual data: ".data
    ("Error processing manual data: " ++ e).data = true
  have hd : ("Error processing manual data: " ++ e).data =
      "Error processing manual data: ".data ++ e.data := rfl
  rw [hd]
  exact charsStart_self_append _ _

theorem manualCore_ok (data : List (String × Value)) (s : Snapshot)
    (h : manualCore data = .ok s) :
    ∃ inc, parseValue (lookupD data "income" (.num 0)) = .ok inc ∧
      s = mkSnapshot inc
        (EXPENSE_CATEGORIES.map (fun c => (c, manualAmount data c))) "manual" := by
  unfold manualCore at h
  cases hp : parseValue (lookupD data "income" (.num 0)) with
  | error e => rw [hp] at h; cases h
  | ok inc =>
    rw [hp] at h
    cases hr : parseCats data EXPENSE_CATEGORIES with
    | error e => rw [hr] at h; cases h
    | ok expenses =>
      rw [hr] at h
      cases h
      exact ⟨inc, rfl, by rw [← parseCats_ok data _ _ hr]⟩

/-! ### CSV-adapter lemmas -/

theorem csvStep_keys (st : ℚ × List (String × ℚ)) (r : CsvRow) :
    (csvStep st r).2.map Prod.fst = st.2.map Prod.fst := by
  unfold csvStep
  by_cases h1 : pyTitle r.category == "Income"
  · simp [h1]
  · simp only [Bool.not_eq_true] at h1
    by_cases h2 : (st.2.lookup (pyTitle r.category)).isSome
    · simp [h1, h2, keys_updAdd]
    · simp only [Bool.not_eq_true] at h2
      simp [h1, h2, keys_updAdd]

theorem csvFold_keys (rows : List CsvRow) (st : ℚ × List (String × ℚ)) :
    (rows.foldl csvStep st).2.map Prod.fst = st.2.map Prod.fst := by
  induction rows generalizing st with
  | nil => rfl
  | cons r rest ih =>
    simp only [List.foldl]
    rw [ih (csvStep st r), csvStep_keys]

theorem csvFold_fst (rows : List CsvRow) (st : ℚ × List (String × ℚ)) :
    (rows.foldl csvStep st).1 =
      rows.foldl (fun a r => if isIncomeRow r then rowAmount r.amount else a)
        st.1 := by
  induction rows generalizing st with
  | nil => rfl
  | cons r rest ih =>
    simp only [List.foldl]
    rw [ih (csvStep st r)]
    congr 1
    unfold csvStep isIncomeRow
    by_cases h1 : pyTitle r.category == "Income"
    · simp [h1]
    · simp only [Bool.not_eq_true] at h1
      by_cases h2 : (st.2.lookup (pyTitle r.category)).isSome
      · simp [h1, h2]
      · simp only [Bool.not_eq_true] at h2
        simp [h1, h2]

theorem csvTargetSum_cons (r : CsvRow) (rest : List CsvRow) (c : String) :
    csvTargetSum (r :: rest) c =
      (if csvTarget r = some c then rowAmount r.amount else 0) +
        csvTargetSum rest c := by
  simp [csvTargetSum]

theorem csvFold_lookup (rows : List CsvRow) :
    ∀ st : ℚ × List (String × ℚ),
      st.2.map Prod.fst = EXPENSE_CATEGORIES → ∀ c : String,
      (rows.foldl csvStep st).2.lookup c =
        (st.2.lookup c).map (· + csvTargetSum rows c) := by
  induction rows with
  | nil =>
    intro st _ c
    cases hl : st.2.lookup c <;> simp [hl, csvTargetSum]
  | cons r rest ih =>
    intro st hkeys c
    have hkeys2 : (csvStep st r).2.map Prod.fst = EXPENSE_CATEGORIES := by
      rw [csvStep_keys]
      exact hkeys
    simp only [List.foldl]
    rw [ih (csvStep st r) hkeys2 c, csvTargetSum_cons]
    by_cases hI : pyTitle r.category = "Income"
    · have hstep : csvStep st r = (rowAmount r.amount, st.2) := by
        simp [csvStep, hI]
      have ht : csvTarget r = none := by simp [csvTarget, hI]
      rw [hstep]
      cases hl : st.2.lookup c <;> simp [hl, ht]
    · have hbI : (pyTitle r.category == "Income") = false :=
        beq_eq_false_iff_ne.mpr hI
      by_cases hM : pyTitle r.category ∈ EXPENSE_CATEGORIES
      · have hSome : (st.2.lookup (pyTitle r.category)).isSome = true :=
          (lookup_isSome_iff _ _).mpr (by rw [hkeys]; exact hM)
        have hstep : csvStep st r =
            (st.1, updAdd st.2 (pyTitle r.category) (rowAmount r.amount)) := by
          simp [csvStep, hbI, hSome]
        have ht : csvTarget r = some (pyTitle r.category) := by
          simp [csvTarget, hI, hM]
        rw [hstep]
        by_cases hc : c = pyTitle r.category
        · rw [hc, lookup_updAdd_self]
          cases hl : st.2.lookup (pyTitle r.category) <;>
            simp [hl, ht, add_assoc]
        · rw [lookup_updAdd_ne _ _ _ _ hc]
          have hne : ¬ csvTarget r = some c := by
            rw [ht]
            intro hcc
            exact hc (Option.some_injective _ hcc).symm
          cases hl : st.2.lookup c <;> simp [hl, hne]
      · have hNone : (st.2.lookup (pyTitle r.category)).isSome = false := by
          rw [Bool.eq_false_iff]
          intro hs
          exact hM (by rw [← hkeys]; exact (lookup_isSome_iff _ _).mp hs)
        have hstep : csvStep st r =
            (st.1, updAdd st.2 "Others" (rowAmount r.amount)) := by
          simp [csvStep, hbI, hNone]
        have ht : csvTarget r = some "Others" := by
          simp [csvTarget, hI, hM]
        rw [hstep]
        by_cases hc : c = "Others"
        · rw [hc, lookup_updAdd_self]
          cases hl : st.2.lookup "Others" <;> simp [hl, ht, add_assoc]
        · rw [lookup_updAdd_ne _ _ _ _ hc]
          have hne : ¬ csvTarget r = some c := by
            rw [ht]
            intro hcc
            exact hc (Option.some_injective _ hcc).symm
          cases hl : st.2.lookup c <;> simp [hl, hne]

theorem csvInit_keys : csvInit.map Prod.fst = EXPENSE_CATEGORIES := by
  decide

theorem process_csv_keys (rows : List CsvRow) :
    (process_csv_data rows).expenses.map Prod.fst = EXPENSE_CATEGORIES := by
  unfold process_csv_data
  show ((rows.foldl csvStep (0, csvInit)).2.map Prod.fst) = _
  rw [csvFold_keys]
  exact csvInit_keys

theorem process_csv_lookup (rows : List CsvRow) (c : String)
    (hc : c ∈ EXPENSE_CATEGORIES) :
    (process_csv_data rows).expenses.lookup c = some (csvTargetSum rows c) := by
  unfold process_csv_data
  show ((rows.foldl csvStep (0, csvInit)).2.lookup c) = _
  rw [csvFold_lookup rows (0, csvInit) csvInit_keys c]
  have hinit : csvInit.lookup c = some 0 := lookup_map_self _ _ _ hc
  rw [hinit]
  simp

theorem process_csv_income (rows : List CsvRow) :
    (process_csv_data rows).income =
      rows.foldl (fun a r => if isIncomeRow r then rowAmount r.amount else a)
        0 := by
  unfold process_csv_data
  show (rows.foldl csvStep (0, csvInit)).1 = _
  rw [csvFold_fst]

theorem foldl_income_no_match (post : List CsvRow) (a : ℚ)
    (h : ∀ r ∈ post, isIncomeRow r = false) :
    post.foldl (fun a r => if isIncomeRow r then rowAmount r.amount else a) a
      = a := by
  induction post generalizing a with
  | nil => rfl
  | cons r rest ih =>
    simp only [List.foldl]
    rw [h r (List.mem_cons_self r rest)]
    simp only [if_neg Bool.false_ne_true]
    exact ih a (fun r hr => h r (List.mem_cons_of_mem _ hr))

/-! ### Snapshot and scorer lemmas -/

theorem keys_tab {α : Type} (cats : List String) (g : String → α) :
    (cats.map (fun c => (c, g c))).map Prod.fst = cats := by
  induction cats with
  | nil => rfl
  | cons a r ih => simp [ih]

theorem manualAmount_absent (data : List (String × Value)) (c : String)
    (h : data.lookup (pyLower c) = none) : manualAmount data c = 0 := by
  unfold manualAmount lookupD
  rw [h]
  rfl

theorem mkSnapshot_zero_rate (exps : List (String × ℚ)) (src : String) :
    (mkSnapshot 0 exps src).savings_rate = 0 := by
  show round2 (if (0:ℚ) > 0 then
    ((0:ℚ) - (exps.map Prod.snd).sum) / 0 * 100 else 0) = 0
  rw [if_neg (lt_irrefl (0:ℚ))]
  decide

theorem mkSnapshot_pct_lookup (income : ℚ) (exps : List (String × ℚ))
    (src : String) (c : String) :
    (mkSnapshot income exps src).expense_percentages.lookup c =
      (exps.lookup c).map
        (fun v => if income > 0 then round2 (v / income * 100) else 0) :=
  lookup_mapVal (fun _ v => if income > 0 then round2 (v / income * 100) else 0)
    exps c

theorem except_ok_of_toOption {α : Type} (r : Except String α) (a : α)
    (h : r.toOption = some a) : r = .ok a := by
  cases r with
  | ok b =>
    simp [Except.toOption] at h
    rw [h]
  | error e => simp [Except.toOption] at h

theorem calcCore_ok_bounds (d : PyVal) (r : HealthResult)
    (h : calcCore d = .ok r) : 0 ≤ r.score ∧ r.score ≤ 100 := by
  unfold calcCore at h
  cases hs : scoreCore d with
  | error e => rw [hs] at h; cases h
  | ok raw =>
    rw [hs] at h
    cases h
    have hsc : ∀ st : HealthResult, st.score = max 0 (min 100 raw) →
        0 ≤ st.score ∧ st.score ≤ 100 := by
      intro st h1
      rw [h1]
      omega
    apply hsc
    split
    · rfl
    · split
      · rfl
      · split
        · rfl
        · rfl

/-! ### Claim theorems -/

/-- C3: for every Snapshot — indeed for every value the session could hold,
including adversarial ones with negative savings or zero income — the
`score` field of the Health Result returned by `calculate_financial_health`
is an integer in the closed interval [0, 100]. -/
theorem c3_score_in_range :
    (∀ s : Snapshot,
      0 ≤ (calculate_financial_health (snapshotToPy s)).score ∧
        (calculate_financial_health (snapshotToPy s)).score ≤ 100) ∧
    (∀ d : PyVal,
      0 ≤ (calculate_financial_health d).score ∧
        (calculate_financial_health d).score ≤ 100) := by
  have hgen : ∀ d : PyVal,
      0 ≤ (calculate_financial_health d).score ∧
        (calculate_financial_health d).score ≤ 100 := by
    intro d
    unfold calculate_financial_health
    cases h : calcCore d with
    | ok r => exact calcCore_ok_bounds d r h
    | error e => exact ⟨le_refl 0, by norm_num⟩
  exact ⟨fun s => hgen (snapshotToPy s), hgen⟩

/-- C8: `calculate_financial_health` never propagates a failure: on every
input it returns a Health Result, and whenever the internal computation
fails (e.g. on a malformed Snapshot such as a bare string, or a dict whose
`savings_rate` is a string) it returns exactly
`{score: 0, status: "Error", color: "gray"}`. -/
theorem c8_error_fallback :
    (∀ d : PyVal,
      (∃ r, calcCore d = .ok r ∧ calculate_financial_health d = r) ∨
      ((∃ e, calcCore d = .error e) ∧
        calculate_financial_health d = ⟨0, "Error", "gray"⟩)) ∧
    calculate_financial_health (PyVal.str "oops") = ⟨0, "Error", "gray"⟩ ∧
    calculate_financial_health
      (PyVal.dict [("savings_rate", PyVal.str "NaN")]) =
      ⟨0, "Error", "gray"⟩ := by
  refine ⟨?_, by decide, by decide⟩
  intro d
  cases h : calcCore d with
  | ok r =>
    left
    exact ⟨r, rfl, by unfold calculate_financial_health; rw [h]⟩
  | error e =>
    right
    exact ⟨⟨e, rfl⟩, by unfold calculate_financial_health; rw [h]⟩

/-- C9: ingesting income 0 with no expense fields yields a Snapshot with
savings_rate 0, savings 0 and all expense percentages 0, and the health
scorer gives that Snapshot a score of at least 20 (the positive-savings
branch awards 10 since savings = 0 ≥ −10% · 0, and the EMI branch awards
20 since emi_pct is 0 when income is not positive). -/
theorem c9_zero_income_scenario :
    ∃ s, process_manual_data [("income", Value.num 0)] = .ok s ∧
      s.savings_rate = 0 ∧ s.savings = 0 ∧
      (∀ p ∈ s.expense_percentages, p.2 = 0) ∧
      20 ≤ (calculate_financial_health (snapshotToPy s)).score :=
  ⟨mkSnapshot 0 (EXPENSE_CATEGORIES.map (fun c => (c, 0))) "manual",
   except_ok_of_toOption _ _ (by decide), by decide, by decide, by decide,
   by decide⟩

/-- C5: when the CSV rows contain several whose title-cased category is
"Income", the resulting income is the amount of the last such row, not the
sum: in particular two Income rows of 40000 and 50000 yield 50000, not
90000. -/
theorem c5_last_income_wins :
    (∀ (pre post : List CsvRow) (r : CsvRow), isIncomeRow r = true →
      (∀ x ∈ post, isIncomeRow x = false) →
      (process_csv_data (pre ++ r :: post)).income = rowAmount r.amount) ∧
    (process_csv_data
      [⟨"Income", Value.num 40000⟩, ⟨"Income", Value.num 50000⟩]).income =
      50000 ∧
    (process_csv_data
      [⟨"Income", Value.num 40000⟩, ⟨"Income", Value.num 50000⟩]).income ≠
      40000 + 50000 := by
  refine ⟨?_, by decide, by decide⟩
  intro pre post r hr hpost
  rw [process_csv_income, List.foldl_append]
  simp only [List.foldl]
  rw [hr]
  simp only [if_true]
  exact foldl_income_no_match post _ hpost

/-- C5 witness: the general last-write-wins statement applied to the
concrete two-Income-row file of the claim. -/
theorem c5_last_income_wins_witness :
    (process_csv_data
      ([⟨"Income", Value.num 40000⟩] ++
        (⟨"Income", Value.num 50000⟩ : CsvRow) :: [])).income =
      rowAmount (CsvRow.mk "Income" (Value.num 50000)).amount :=
  c5_last_income_wins.1 [⟨"Income", Value.num 40000⟩] []
    ⟨"Income", Value.num 50000⟩ (by decide) (by decide)

/-- C6: a CSV row whose amount cell cannot be parsed contributes exactly 0
to its category and does not abort the ingestion: the result is the same
Snapshot as if that row carried amount 0, with every other row (before and
after) processed normally. -/
theorem c6_invalid_amount_is_zero :
    ∀ (pre post : List CsvRow) (cat s : String),
      process_csv_data (pre ++ ⟨cat, Value.invalid s⟩ :: post) =
        process_csv_data (pre ++ ⟨cat, Value.num 0⟩ :: post) := by
  intro pre post cat s
  have h : ∀ st : ℚ × List (String × ℚ),
      csvStep st ⟨cat, Value.invalid s⟩ = csvStep st ⟨cat, Value.num 0⟩ := by
    intro st
    rfl
  unfold process_csv_data
  rw [List.foldl_append, List.foldl_append]
  simp only [List.foldl]
  rw [h]

/-- C1: both ingestion paths produce an expenses mapping whose key list is
exactly the nine schema categories: in the manual path a category with no
(lowercased) input field gets amount 0, and in the CSV path every category
holds exactly the accumulated amounts routed to it — in particular a row
whose title-cased category is neither "Income" nor a schema category is
accumulated into "Others" (`csvTarget`/`csvTargetSum`). -/
theorem c1_expenses_keys_schema :
    (∀ (data : List (String × Value)) (s : Snapshot),
      process_manual_data data = .ok s →
      s.expenses.map Prod.fst = EXPENSE_CATEGORIES ∧
      ∀ c ∈ EXPENSE_CATEGORIES, data.lookup (pyLower c) = none →
        s.expenses.lookup c = some 0) ∧
    (∀ rows : List CsvRow,
      (process_csv_data rows).expenses.map Prod.fst = EXPENSE_CATEGORIES ∧
      ∀ c ∈ EXPENSE_CATEGORIES,
        (process_csv_data rows).expenses.lookup c =
          some (csvTargetSum rows c)) := by
  constructor
  · intro data s hok
    obtain ⟨inc, _, hs⟩ :=
      manualCore_ok data s ((process_manual_ok_iff data s).mp hok)
    subst hs
    constructor
    · exact keys_tab _ _
    · intro c hc habsent
      show (List.lookup c (EXPENSE_CATEGORIES.map
        (fun c => (c, manualAmount data c)))) = some 0
      rw [lookup_map_self _ _ _ hc, manualAmount_absent data c habsent]
  · intro rows
    exact ⟨process_csv_keys rows,
      fun c hc => process_csv_lookup rows c hc⟩

/-- C1 witness: the key-set and default/fallback facts at concrete inputs:
a manual payload with only an income field, and a one-row CSV whose
category "Gadgets" is not in the schema. -/
theorem c1_expenses_keys_schema_witness :
    (mkSnapshot 5 (EXPENSE_CATEGORIES.map
        (fun c => (c, manualAmount [("income", Value.num 5)] c)))
       "manual").expenses.map Prod.fst = EXPENSE_CATEGORIES ∧
    (mkSnapshot 5 (EXPENSE_CATEGORIES.map
        (fun c => (c, manualAmount [("income", Value.num 5)] c)))
       "manual").expenses.lookup "Rent" = some 0 ∧
    (process_csv_data [⟨"Gadgets", Value.num 7⟩]).expenses.lookup "Others" =
      some (csvTargetSum [⟨"Gadgets", Value.num 7⟩] "Others") ∧
    csvTargetSum [⟨"Gadgets", Value.num 7⟩] "Others" = 7 :=
  ⟨(c1_expenses_keys_schema.1 [("income", Value.num 5)] _
      (except_ok_of_toOption _ _ (by decide))).1,
   (c1_expenses_keys_schema.1 [("income", Value.num 5)] _
      (except_ok_of_toOption _ _ (by decide))).2 "Rent" (by decide)
      (by decide),
   (c1_expenses_keys_schema.2 [⟨"Gadgets", Value.num 7⟩]).2 "Others"
      (by decide),
   by decide⟩

/-- C2: whenever the ingested income is 0, both adapters produce a Snapshot
with savings_rate exactly 0 and every schema category's expense percentage
exactly 0, for arbitrary expense amounts (the income-0 guard avoids any
division by zero). -/
theorem c2_zero_income_zero_rates :
    (∀ (data : List (String × Value)) (s : Snapshot),
      process_manual_data data = .ok s → s.income = 0 →
      s.savings_rate = 0 ∧
      ∀ c ∈ EXPENSE_CATEGORIES,
        s.expense_percentages.lookup c = some 0) ∧
    (∀ rows : List CsvRow, (process_csv_data rows).income = 0 →
      (process_csv_data rows).savings_rate = 0 ∧
      ∀ c ∈ EXPENSE_CATEGORIES,
        (process_csv_data rows).expense_percentages.lookup c = some 0) := by
  constructor
  · intro data s hok hz
    obtain ⟨inc, _, hs⟩ :=
      manualCore_ok data s ((process_manual_ok_iff data s).mp hok)
    have hinc : inc = 0 := by
      rw [hs] at hz
      exact hz
    subst hinc
    subst hs
    refine ⟨mkSnapshot_zero_rate _ _, fun c hc => ?_⟩
    rw [mkSnapshot_pct_lookup, lookup_map_self _ _ _ hc]
    simp [lt_irrefl]
  · intro rows hz
    have h1 : (rows.foldl csvStep (0, csvInit)).1 = 0 := hz
    have he : process_csv_data rows =
        mkSnapshot 0 ((rows.foldl csvStep (0, csvInit)).2) "csv" := by
      unfold process_csv_data
      rw [h1]
    rw [he]
    refine ⟨mkSnapshot_zero_rate _ _, fun c hc => ?_⟩
    rw [mkSnapshot_pct_lookup]
    have hl : (rows.foldl csvStep (0, csvInit)).2.lookup c =
        some (csvTargetSum rows c) := by
      rw [csvFold_lookup rows (0, csvInit) csvInit_keys c]
      show Option.map (fun x => x + csvTargetSum rows c) (csvInit.lookup c) =
        some (csvTargetSum rows c)
      unfold csvInit
      rw [lookup_map_self _ _ _ hc]
      simp
    rw [hl]
    simp [lt_irrefl]

/-- C2 witness: a manual payload with income 0 and rent 500, and a CSV
file with an explicit zero Income row and a Food row, both yield zero
savings rate and zero percentages. -/
theorem c2_zero_income_zero_rates_witness :
    (mkSnapshot 0 (EXPENSE_CATEGORIES.map (fun c =>
        (c, manualAmount [("income", Value.num 0), ("rent", Value.num 500)] c)))
       "manual").savings_rate = 0 ∧
    (mkSnapshot 0 (EXPENSE_CATEGORIES.map (fun c =>
        (c, manualAmount [("income", Value.num 0), ("rent", Value.num 500)] c)))
       "manual").expense_percentages.lookup "Rent" = some 0 ∧
    (process_csv_data
      [⟨"Income", Value.num 0⟩, ⟨"Food", Value.num 300⟩]).savings_rate = 0 ∧
    (process_csv_data
      [⟨"Income", Value.num 0⟩,
       ⟨"Food", Value.num 300⟩]).expense_percentages.lookup "Food" =
      some 0 :=
  ⟨(c2_zero_income_zero_rates.1
      [("income", Value.num 0), ("rent", Value.num 500)] _
      (except_ok_of_toOption _ _ (by decide)) (by decide)).1,
   (c2_zero_income_zero_rates.1
      [("income", Value.num 0), ("rent", Value.num 500)] _
      (except_ok_of_toOption _ _ (by decide)) (by decide)).2 "Rent"
      (by decide),
   (c2_zero_income_zero_rates.2
      [⟨"Income", Value.num 0⟩, ⟨"Food", Value.num 300⟩] (by decide)).1,
   (c2_zero_income_zero_rates.2
      [⟨"Income", Value.num 0⟩, ⟨"Food", Value.num 300⟩] (by decide)).2
      "Food" (by decide)⟩

/-- C4 counterexample: the field "Rent" equals the schema category "Rent"
under case-insensitive comparison, yet its value 500 does not reach the
Rent category — the adapter leaves Rent at 0, because it only reads the
exact lowercase key "rent". -/
theorem c4_counterexample :
    (process_manual_data
      [("income", Value.num 1000), ("Rent", Value.num 500)]).toOption.map
        (fun s => s.expenses.lookup "Rent") = some (some 0) ∧
    (process_manual_data
      [("income", Value.num 1000), ("Rent", Value.num 500)]).toOption.map
        (fun s => s.expenses.lookup "Rent") ≠ some (some 500) :=
  ⟨by decide, by decide⟩

/-- C4 amended: the manual adapter reads exactly one spelling per schema
category — the all-lowercase one (`category.lower()`): a field whose name
is the lowercased schema category name contributes its value to that
category; a field in any other casing (e.g. "Rent", "RENT") is ignored. -/
theorem c4_lowercase_field_match (data : List (String × Value)) (c : String)
    (q : ℚ) (s : Snapshot) (hc : c ∈ EXPENSE_CATEGORIES)
    (hl : data.lookup (pyLower c) = some (Value.num q))
    (h : process_manual_data data = .ok s) :
    s.expenses.lookup c = some q := by
  obtain ⟨inc, _, hs⟩ :=
    manualCore_ok data s ((process_manual_ok_iff data s).mp h)
  subst hs
  show (List.lookup c (EXPENSE_CATEGORIES.map
    (fun c => (c, manualAmount data c)))) = some q
  rw [lookup_map_self _ _ _ hc]
  unfold manualAmount lookupD
  rw [hl]
  rfl

/-- C4 witness: the lowercase field "rent" does contribute its 500 to the
Rent category. -/
theorem c4_lowercase_field_match_witness :
    (mkSnapshot 1000 (EXPENSE_CATEGORIES.map (fun c =>
        (c, manualAmount [("income", Value.num 1000), ("rent", Value.num 500)] c)))
       "manual").expenses.lookup "Rent" = some 500 :=
  c4_lowercase_field_match
    [("income", Value.num 1000), ("rent", Value.num 500)] "Rent" 500 _
    (by decide) (by decide) (except_ok_of_toOption _ _ (by decide))

/-- C7 counterexample: a mapping whose field "Rent" — literally a schema
category name — holds an unparseable value is not rejected: the adapter
never reads that spelling, returns a Snapshot (income 10), and the Rent
category silently stays 0. -/
theorem c7_counterexample :
    (process_manual_data
      [("income", Value.num 10), ("Rent", Value.invalid "x")]).toOption.map
        Snapshot.income = some 10 ∧
    raisesManualError (process_manual_data
      [("income", Value.num 10), ("Rent", Value.invalid "x")]) = false :=
  ⟨by decide, by decide⟩

/-- C7 amended: the manual adapter fails the whole ingestion — raising a
single descriptive error and returning no Snapshot — whenever a field it
actually reads ("income", or the lowercase spelling of a schema category)
holds a value `float()` cannot parse; such values are never defaulted to 0.
Unparseable values under any other field name (e.g. the title-cased
"Rent") are outside the fields the adapter consumes and are ignored. -/
theorem c7_strict_on_consumed_fields (data : List (String × Value))
    (h : (∃ v, data.lookup "income" = some (Value.invalid v)) ∨
      ∃ c ∈ EXPENSE_CATEGORIES, ∃ v,
        data.lookup (pyLower c) = some (Value.invalid v)) :
    raisesManualError (process_manual_data data) = true := by
  rcases h with ⟨v, hv⟩ | ⟨c, hc, v, hv⟩
  · have hcore : ∃ e, manualCore data = .error e := by
      unfold manualCore lookupD
      rw [hv]
      exact ⟨_, rfl⟩
    obtain ⟨e, he⟩ := hcore
    exact raisesManualError_of_core data e he
  · cases hp : parseValue (lookupD data "income" (.num 0)) with
    | error e =>
      have he : manualCore data = .error e := by
        unfold manualCore
        rw [hp]
      exact raisesManualError_of_core data e he
    | ok inc =>
      have hvD : lookupD data (pyLower c) (.num 0) = Value.invalid v := by
        unfold lookupD
        rw [hv]
      obtain ⟨e, he⟩ :=
        parseCats_error_of_mem data EXPENSE_CATEGORIES c v hc hvD
      have hcore : manualCore data = .error e := by
        unfold manualCore
        rw [hp, he]
      exact raisesManualError_of_core data e hcore

/-- C7 witness: an unparseable income value makes the whole ingestion fail
with the descriptive error message. -/
theorem c7_strict_on_consumed_fields_witness :
    raisesManualError
      (process_manual_data [("income", Value.invalid "abc")]) = true :=
  c7_strict_on_consumed_fields [("income", Value.invalid "abc")]
    (Or.inl ⟨"abc", by decide⟩)

/-- C10 counterexample: a mapping without an "income" key does not always
produce the all-zero Snapshot the claim describes — with an unparseable
"rent" field the ingestion fails outright, and with a numeric "rent" field
the snapshot has a nonzero Rent expense and negative savings. -/
theorem c10_counterexample :
    (List.lookup "income" [("rent", Value.invalid "abc")] = none) ∧
    (process_manual_data [("rent", Value.invalid "abc")]).toOption = none ∧
    (List.lookup "income" [("rent", Value.num 500)] = none) ∧
    (process_manual_data [("rent", Value.num 500)]).toOption.map
      Snapshot.savings = some (-500) :=
  ⟨by decide, by decide, by decide, by decide⟩

/-- C10 amended: the manual adapter does not require an "income" field:
when it is absent and every (lowercase) category field that is present
parses as a number, ingestion succeeds with income 0; if moreover no
category field is present at all (e.g. the empty mapping), every expense
is 0, savings is 0 and savings_rate is 0. -/
theorem c10_missing_income_defaults (data : List (String × Value))
    (hno : data.lookup "income" = none)
    (hwt : ∀ c ∈ EXPENSE_CATEGORIES, ∀ v,
      data.lookup (pyLower c) = some v → ∃ q, v = Value.num q) :
    ∃ s, process_manual_data data = .ok s ∧ s.income = 0 ∧
      ((∀ c ∈ EXPENSE_CATEGORIES, data.lookup (pyLower c) = none) →
        s.savings = 0 ∧ s.savings_rate = 0 ∧
          ∀ p ∈ s.expenses, p.2 = 0) := by
  have hinc : parseValue (lookupD data "income" (.num 0)) = .ok 0 := by
    unfold lookupD
    rw [hno]
    rfl
  have hcats := parseCats_ok_of_wellTyped data EXPENSE_CATEGORIES hwt
  have hcore : manualCore data = .ok (mkSnapshot 0
      (EXPENSE_CATEGORIES.map (fun c => (c, manualAmount data c)))
      "manual") := by
    unfold manualCore
    rw [hinc, hcats]
  refine ⟨_, (process_manual_ok_iff data _).mpr hcore, rfl, ?_⟩
  intro habsent
  have hzero : ∀ c ∈ EXPENSE_CATEGORIES, manualAmount data c = 0 :=
    fun c hc => manualAmount_absent data c (habsent c hc)
  have hmap : EXPENSE_CATEGORIES.map (fun c => (c, manualAmount data c)) =
      EXPENSE_CATEGORIES.map (fun c => (c, (0:ℚ))) :=
    List.map_congr_left (fun c hc => by rw [hzero c hc])
  refine ⟨?_, ?_, ?_⟩
  · show (0:ℚ) - ((EXPENSE_CATEGORIES.map
      (fun c => (c, manualAmount data c))).map Prod.snd).sum = 0
    rw [hmap]
    decide
  · rw [hmap]
    exact mkSnapshot_zero_rate _ _
  · intro p hp
    show p.2 = 0
    rw [hmap] at hp
    obtain ⟨c, _, hpc⟩ := List.mem_map.mp hp
    rw [← hpc]

/-- C10 witness: the empty mapping ingests successfully with income 0 (and
all the zero facts). -/
theorem c10_missing_income_defaults_witness :
    ∃ s, process_manual_data [] = .ok s ∧ s.income = 0 ∧
      ((∀ c ∈ EXPENSE_CATEGORIES,
          List.lookup (pyLower c) ([] : List (String × Value)) = none) →
        s.savings = 0 ∧ s.savings_rate = 0 ∧
          ∀ p ∈ s.expenses, p.2 = 0) :=
  c10_missing_income_defaults [] (by decide)
    (fun _ _ _ hv => Option.noConfusion hv)
